import Mathlib

/-!
# Verification of the eraflazz transaction core

Shallow embedding of the Go sources of `alfanzaky/eraflazz`:
the domain model (`internal/domain`), the phone utilities (`pkg/utils`),
the smart-routing scorer (`internal/usecase/smart_routing_uc.go`),
the retry controller (`usecase/retry_uc.go`) and the transaction
orchestrator (`usecase/transaction_uc.go`).

Modelling conventions:
* Go `float64` is modelled as `ℚ` (all constants in the sources are
  exactly representable, and every concrete computation checked below
  produces the same value the float computation does);
* Go `int` is modelled as `Int`; a Go float→int conversion (which
  truncates toward zero) is modelled as `Int.floor` (all truncated
  values in the verified paths are non-negative);
* Go `time.Duration` is an `Int` number of nanoseconds, `time.Time`
  an `Int` (nanoseconds since epoch);
* Go strings are `String`, except the phone utilities where the
  character-level processing is modelled on `List Char`;
* randomness (`GenerateUUID`, `GenerateTrxCode`, `GenerateRandomString`,
  the simulated supplier call) and the adapter's answer are supplied by
  an explicit `Env` oracle;
* the database repositories are modelled as lists inside a `World`
  record; an SQL `UPDATE ... WHERE id` is a `List.map` that rewrites
  the matching record.
-/

deriving instance DecidableEq for Except

/-! ## Domain model (`internal/domain`) -/

/-- Status and mutation constants of `internal/domain/transaction.go`. -/
def StatusPending : String := "PENDING"

def StatusProcessing : String := "PROCESSING"

def StatusSuccess : String := "SUCCESS"

def StatusFailed : String := "FAILED"

def StatusRefund : String := "REFUND"

def StatusTimeout : String := "TIMEOUT"

/-- `MutationTypeDebit` — money in. -/
def MutationTypeDebit : String := "DEBIT"

/-- `MutationTypeCredit` — money out. -/
def MutationTypeCredit : String := "CREDIT"

def ReferenceTypeTransaction : String := "TRANSACTION"

def StockStatusAvailable : String := "AVAILABLE"

def StockStatusOutOfStock : String := "OUT_OF_STOCK"

def StockStatusUnknown : String := "UNKNOWN"

/-- `LevelAdmin` from `internal/domain` (user levels 1..4). -/
def LevelAdmin : Int := 4

/-- `MinSuccessRateThreshold` from `internal/domain`. -/
def MinSuccessRateThreshold : ℚ := 50

/-- `domain.User` — the fields the verified operations read. -/
structure User where
  ID : String
  IsActive : Bool
  Balance : ℚ
  CreditLimit : ℚ
  MarkupPercentage : ℚ
  AllowDebt : Bool
  Level : Int
  deriving Repr, DecidableEq

/-- `User.GetEffectivePrice`: admin pays base price, everyone else
base price times `1 + markup/100`. -/
def User.GetEffectivePrice (u : User) (basePrice : ℚ) : ℚ :=
  if u.Level = LevelAdmin then basePrice
  else basePrice * (1 + u.MarkupPercentage / 100)

/-- `User.HasSufficientBalance`. -/
def User.HasSufficientBalance (u : User) (amount : ℚ) : Bool :=
  if u.AllowDebt then decide (u.Balance + u.CreditLimit ≥ amount)
  else decide (u.Balance ≥ amount)

/-- `domain.Product` — the fields the verified operations read. -/
structure Product where
  ID : String
  Code : String
  BasePrice : ℚ
  SellingPrice : ℚ
  MinPrice : ℚ
  MaxTransactionAmount : ℚ
  IsActive : Bool
  deriving Repr, DecidableEq

/-- `domain.Supplier` — the fields the verified operations read. -/
structure Supplier where
  ID : String
  Code : String
  IsActive : Bool
  Priority : Int
  Balance : ℚ
  MinBalanceThreshold : ℚ
  SuccessRate : ℚ
  AvgResponseTimeMs : Int
  TotalTransactions : Int
  FailedTransactions : Int
  deriving Repr, DecidableEq

/-- `Supplier.IsHealthy`. -/
def Supplier.IsHealthy (s : Supplier) : Bool :=
  if !s.IsActive then false
  else if s.SuccessRate < MinSuccessRateThreshold then false
  else if s.Balance < s.MinBalanceThreshold then false
  else true

/-- `Supplier.UpdatePerformanceMetrics` (`internal/domain/transaction.go`):
increment totals, conditionally increment failures, recompute the
success rate, and update the average response time.  The Go
`int(x)` conversion truncates, modelled by `Int.floor` (all values
are non-negative here). -/
def Supplier.UpdatePerformanceMetrics (s : Supplier) (success : Bool)
    (responseTimeMs : Int) : Supplier :=
  let s := { s with TotalTransactions := s.TotalTransactions + 1 }
  let s := if !success then { s with FailedTransactions := s.FailedTransactions + 1 } else s
  let s :=
    if s.TotalTransactions > 0 then
      { s with SuccessRate :=
          ((s.TotalTransactions - s.FailedTransactions : Int) : ℚ) /
            ((s.TotalTransactions : Int) : ℚ) * 100 }
    else s
  if s.AvgResponseTimeMs = 0 then
    { s with AvgResponseTimeMs := responseTimeMs }
  else
    { s with AvgResponseTimeMs :=
        Int.floor (((s.AvgResponseTimeMs : Int) : ℚ) * (7 / 10) +
          ((responseTimeMs : Int) : ℚ) * (3 / 10)) }

/-- The SQL `UpdateMetrics` of the supplier repository
(`supplier_repository.go`): same arithmetic as
`Supplier.UpdatePerformanceMetrics` except that the Postgres
`::integer` cast rounds to nearest (half away from zero; all values
here are non-negative, so `⌊x + 1/2⌋`). -/
def updateMetricsSQL (s : Supplier) (success : Bool) (responseTimeMs : Int) : Supplier :=
  let total := s.TotalTransactions + 1
  let failed := if success then s.FailedTransactions else s.FailedTransactions + 1
  let rate : ℚ := ((total - failed : Int) : ℚ) * 100 / ((total : Int) : ℚ)
  let avg : Int :=
    if s.AvgResponseTimeMs = 0 then responseTimeMs
    else Int.floor (((s.AvgResponseTimeMs : Int) : ℚ) * (7 / 10) +
      ((responseTimeMs : Int) : ℚ) * (3 / 10) + 1 / 2)
  { s with TotalTransactions := total, FailedTransactions := failed,
           SuccessRate := rate, AvgResponseTimeMs := avg }

/-- `domain.ProductMapping` — the fields the verified operations read. -/
structure ProductMapping where
  ID : String
  ProductID : String
  SupplierID : String
  SupplierProductCode : String
  SupplierPrice : ℚ
  AdditionalFee : ℚ
  Priority : Int
  IsActive : Bool
  StockStatus : String
  SuccessCount : Int
  FailureCount : Int
  deriving Repr, DecidableEq

/-- `domain.Transaction` — the fields the verified operations read. -/
structure Transaction where
  ID : String
  TrxCode : String
  UserID : String
  ProductID : String
  SupplierID : Option String
  DestinationNumber : List Char
  ProductCode : String
  HPP : ℚ
  SellingPrice : ℚ
  AdminFee : ℚ
  Status : String
  SerialNumber : Option String
  SupplierMessage : Option String
  SupplierTrxID : Option String
  RoutingAttempts : Int
  FinalSupplierID : Option String
  CreatedAt : Int
  ProcessedAt : Option Int
  CompletedAt : Option Int
  deriving Repr, DecidableEq

/-- `Transaction.CanRetry`: failed and fewer than the hard-coded
3 routing attempts. -/
def Transaction.CanRetry (t : Transaction) : Bool :=
  t.Status == StatusFailed && decide (t.RoutingAttempts < 3)

/-- `Transaction.IsFinalStatus`. -/
def Transaction.IsFinalStatus (t : Transaction) : Bool :=
  t.Status == StatusSuccess || t.Status == StatusFailed ||
    t.Status == StatusRefund || t.Status == StatusTimeout

/-- `domain.Mutation` (ledger row) — the fields the verified
operations read.  The Go field `Type` is spelled `Type_`. -/
structure Mutation where
  ID : String
  UserID : String
  Type_ : String
  Amount : ℚ
  BalanceBefore : ℚ
  BalanceAfter : ℚ
  Description : String
  ReferenceType : Option String
  ReferenceID : Option String
  deriving Repr, DecidableEq

/-! ## Phone utilities (`pkg/utils/utils.go`), on `List Char` -/

/-- `utils.ParsePhoneNumber`: drop every non-digit character, then
rewrite a leading `0` to `62`. -/
def ParsePhoneNumber (phone : List Char) : List Char :=
  let digits := phone.filter Char.isDigit
  match digits with
  | '0' :: rest => '6' :: '2' :: rest
  | other => other

/-- `utils.ValidatePhoneNumber`: normalize, require the `62` prefix
and 9–13 digits after it. -/
def ValidatePhoneNumber (phone : List Char) : Bool :=
  let normalized := ParsePhoneNumber phone
  if !(['6', '2'].isPrefixOf normalized) then false
  else
    let digits := normalized.drop 2
    decide (9 ≤ digits.length) && decide (digits.length ≤ 13)

/-! ## Smart routing (`internal/usecase/smart_routing_uc.go`) -/

/-- `usecase.RoutingCriteria`. -/
structure RoutingCriteria where
  PriorityOnly : Bool
  PreferCheapest : Bool
  PreferFastest : Bool
  PreferReliable : Bool
  MaxSuppliers : Int
  MinSuccessRate : ℚ
  deriving Repr, DecidableEq

/-- The criteria `GetBestSupplier` substitutes when it is called with
`criteria == nil`. -/
def defaultRoutingCriteria : RoutingCriteria :=
  { PriorityOnly := false, PreferCheapest := true, PreferFastest := false,
    PreferReliable := true, MaxSuppliers := 5, MinSuccessRate := 50 }

/-- `usecase.SupplierScore`.  The Go `Breakdown` map always carries
exactly the six factor entries, modelled as explicit fields. -/
structure SupplierScore where
  supplier : Supplier
  TotalScore : ℚ
  Confidence : ℚ
  Reason : String
  bPriority : ℚ
  bSuccessRate : ℚ
  bResponseTime : ℚ
  bPrice : ℚ
  bStock : ℚ
  bRecent : ℚ
  deriving Repr, DecidableEq

/-- `calculateRecentPerformanceScore`. -/
def calculateRecentPerformanceScore (mapping : ProductMapping) : ℚ :=
  let totalAttempts := mapping.SuccessCount + mapping.FailureCount
  if totalAttempts = 0 then 1 / 2
  else
    let recentSuccessRate := ((mapping.SuccessCount : Int) : ℚ) / ((totalAttempts : Int) : ℚ)
    if totalAttempts ≥ 10 ∧ recentSuccessRate ≥ 95 / 100 then 1
    else recentSuccessRate

/-- `calculateConfidence`: base 0.5 adjusted by reliability, volume,
recent performance and stock status, clamped to [0, 1]. -/
def calculateConfidence (recentScore : ℚ) (supplier : Supplier)
    (mapping : ProductMapping) : ℚ :=
  let confidence : ℚ := 1 / 2
  let confidence := if supplier.SuccessRate ≥ 95 then confidence + 2 / 10
    else if supplier.SuccessRate ≥ 90 then confidence + 1 / 10 else confidence
  let confidence := if supplier.TotalTransactions ≥ 1000 then confidence + 2 / 10
    else if supplier.TotalTransactions ≥ 100 then confidence + 1 / 10 else confidence
  let confidence := if recentScore ≥ 9 / 10 then confidence + 1 / 10 else confidence
  let confidence := if mapping.StockStatus == StockStatusUnknown then confidence - 1 / 10
    else confidence
  let confidence := if confidence > 1 then 1 else confidence
  if confidence < 0 then 0 else confidence

/-- `generateReason`: human-readable explanation assembled from the
factor breakdown (capped at three clauses). -/
def generateReason (score : SupplierScore) (criteria : RoutingCriteria) : String :=
  let reasons : List String := []
  let reasons := if score.bPriority ≥ 8 / 10 then reasons ++ ["highest priority"] else reasons
  let reasons := if score.bSuccessRate ≥ 9 / 10 then reasons ++ ["excellent success rate"]
    else if score.bSuccessRate ≥ 8 / 10 then reasons ++ ["good success rate"] else reasons
  let reasons := if score.bResponseTime ≥ 8 / 10 then reasons ++ ["fast response"] else reasons
  let reasons := if criteria.PreferCheapest ∧ score.bPrice ≥ 9 / 10 then
    reasons ++ ["best price"] else reasons
  let reasons := if score.bStock ≥ 8 / 10 then reasons ++ ["stock available"] else reasons
  match reasons.take 3 with
  | [] => "selected by algorithm"
  | [r] => r
  | [r1, r2] => r1 ++ " and " ++ r2
  | [r1, r2, r3] => r1 ++ ", " ++ r2 ++ " and " ++ r3
  | r :: _ => r

/-- `calculateSupplierScore`: weighted factor score, confidence and
reason for one supplier.  `1/priority` is rational division (the Go
float division agrees for every `priority ≥ 1`; suppliers with
priority 0 do not occur in the verified scenarios). -/
def calculateSupplierScore (supplier : Supplier)
    (mappings : List ProductMapping) (criteria : RoutingCriteria) : SupplierScore :=
  match mappings.find? (fun m => m.SupplierID == supplier.ID) with
  | none =>
    { supplier := supplier, TotalScore := 0, Confidence := 0,
      Reason := "No mapping found", bPriority := 0, bSuccessRate := 0,
      bResponseTime := 0, bPrice := 0, bStock := 0, bRecent := 0 }
  | some mapping =>
    let priorityScore : ℚ := 1 / ((supplier.Priority : Int) : ℚ)
    let successRateScore : ℚ := supplier.SuccessRate / 100
    let responseTimeScore : ℚ :=
      if supplier.AvgResponseTimeMs > 0 then 10000 / ((supplier.AvgResponseTimeMs : Int) : ℚ)
      else 1
    let priceScore : ℚ :=
      if criteria.PreferCheapest ∧ mapping.SupplierPrice > 0 then
        let minPrice := mappings.foldl
          (fun acc m => if m.SupplierPrice < acc ∧ m.IsActive then m.SupplierPrice else acc)
          mapping.SupplierPrice
        minPrice / mapping.SupplierPrice
      else 1
    let stockScore : ℚ :=
      if mapping.StockStatus == StockStatusOutOfStock then 0
      else if mapping.StockStatus == StockStatusUnknown then 1 / 2
      else 1
    let recentScore := calculateRecentPerformanceScore mapping
    let totalScore : ℚ :=
      if criteria.PriorityOnly then priorityScore * 1
      else
        let wPriority : ℚ := 3 / 10
        let wSuccess : ℚ := 3 / 10
        let wResponse : ℚ := 2 / 10
        let wPrice : ℚ := 1 / 10
        let wStock : ℚ := 5 / 100
        let wRecent : ℚ := 5 / 100
        let (wPrice, wPriority) :=
          if criteria.PreferCheapest then ((3 : ℚ) / 10, (2 : ℚ) / 10)
          else (wPrice, wPriority)
        let (wResponse, wPriority) :=
          if criteria.PreferFastest then ((4 : ℚ) / 10, (2 : ℚ) / 10)
          else (wResponse, wPriority)
        let (wSuccess, wPriority) :=
          if criteria.PreferReliable then ((5 : ℚ) / 10, (2 : ℚ) / 10)
          else (wSuccess, wPriority)
        priorityScore * wPriority + successRateScore * wSuccess +
          responseTimeScore * wResponse + priceScore * wPrice +
          stockScore * wStock + recentScore * wRecent
    let base : SupplierScore :=
      { supplier := supplier, TotalScore := totalScore,
        Confidence := calculateConfidence recentScore supplier mapping,
        Reason := "", bPriority := priorityScore, bSuccessRate := successRateScore,
        bResponseTime := responseTimeScore, bPrice := priceScore,
        bStock := stockScore, bRecent := recentScore }
    { base with Reason := generateReason base criteria }

/-- The ordering used by the `sort.Slice` call in `GetBestSupplier`
(comparator `TotalScore >`): for slices below Go's pdqsort threshold
the sort is an insertion sort, i.e. stable, so ties keep their input
order; modelled by `List.insertionSort` with the reflexive
descending relation. -/
def scoreGE (a b : SupplierScore) : Prop := b.TotalScore ≤ a.TotalScore

instance : DecidableRel scoreGE := fun a b =>
  inferInstanceAs (Decidable (b.TotalScore ≤ a.TotalScore))

instance : IsTotal SupplierScore scoreGE := ⟨fun a b => le_total b.TotalScore a.TotalScore⟩

instance : IsTrans SupplierScore scoreGE :=
  ⟨fun _ _ _ h1 h2 => le_trans h2 h1⟩

/-- The healthy candidate suppliers of `GetBestSupplier`: for each
mapping, resolve the supplier and keep it when healthy (in mapping
order). -/
def healthyCandidates (mappings : List ProductMapping)
    (findSupplier : String → Option Supplier) : List Supplier :=
  mappings.foldl
    (fun acc m =>
      match findSupplier m.SupplierID with
      | none => acc
      | some s => if s.IsHealthy then acc ++ [s] else acc)
    []

/-- The scored candidates, in candidate order. -/
def candidateScores (mappings : List ProductMapping)
    (findSupplier : String → Option Supplier) (criteria : RoutingCriteria) :
    List SupplierScore :=
  (healthyCandidates mappings findSupplier).map
    (fun s => calculateSupplierScore s mappings criteria)

/-- The candidates ranked by the `sort.Slice` call (descending total
score, ties stable). -/
def rankedScores (mappings : List ProductMapping)
    (findSupplier : String → Option Supplier) (criteria : RoutingCriteria) :
    List SupplierScore :=
  List.insertionSort scoreGE (candidateScores mappings findSupplier criteria)

/-- `usecase.RoutingResult`. -/
structure RoutingResult where
  SelectedSupplier : Supplier
  SelectedMapping : Option ProductMapping
  Confidence : ℚ
  Reason : String
  Alternatives : List Supplier
  deriving Repr, DecidableEq

/-- `GetBestSupplier`: score the healthy suppliers of the product's
active mappings, rank them, and return the best with up to
`MaxSuppliers − 2` alternatives (the Go loop takes indices
`1 ≤ i < MaxSuppliers − 1`).  `none` models the error returns (no
mappings / no healthy supplier). -/
def GetBestSupplier (mappings : List ProductMapping)
    (findSupplier : String → Option Supplier) (criteria? : Option RoutingCriteria) :
    Option RoutingResult :=
  if mappings.isEmpty then none
  else
    let criteria := criteria?.getD defaultRoutingCriteria
    match rankedScores mappings findSupplier criteria with
    | [] => none
    | best :: rest =>
      some
        { SelectedSupplier := best.supplier,
          SelectedMapping := mappings.find? (fun m => m.SupplierID == best.supplier.ID),
          Confidence := best.Confidence,
          Reason := best.Reason,
          Alternatives := (rest.take (criteria.MaxSuppliers - 2).toNat).map
            (fun sc => sc.supplier) }

/-! ## Persistent state and oracles -/

/-- The database state: each repository is a list of rows. -/
structure World where
  users : List User
  products : List Product
  suppliers : List Supplier
  mappings : List ProductMapping
  transactions : List Transaction
  mutations : List Mutation
  queue : List String
  deriving Repr, DecidableEq

/-- `domain.SupplierResponse` — the fields the orchestrator reads. -/
structure SupplierResponse where
  Success : Bool
  Message : String
  TrxID : String
  SerialNumber : String
  ResponseTime : Int
  deriving Repr, DecidableEq

/-- Oracle for every non-deterministic input of one orchestrator run:
the clock, the generated identifiers, the adapter registry and the
adapter / simulated supplier answers. -/
structure Env where
  now : Int
  newId : String
  newTrxCode : String
  serial : String
  adapterRegistered : String → Bool
  topUpResponse : Option SupplierResponse
  retryOutcomes : List Bool

def findUserW (w : World) (id : String) : Option User :=
  w.users.find? (fun u => u.ID == id)

def findProductByCode (w : World) (code : String) : Option Product :=
  w.products.find? (fun p => p.Code == code)

def findSupplierW (w : World) (id : String) : Option Supplier :=
  w.suppliers.find? (fun s => s.ID == id)

def findTrx (w : World) (id : String) : Option Transaction :=
  w.transactions.find? (fun t => t.ID == id)

/-- `transactionRepo.Update`: rewrite the row with the same id. -/
def updateTrx (w : World) (t : Transaction) : World :=
  { w with transactions := w.transactions.map (fun x => if x.ID == t.ID then t else x) }

/-- `transactionRepo.UpdateStatus`: rewrite only the status column. -/
def updateTrxStatus (w : World) (id status : String) : World :=
  let rows := w.transactions.map (fun x => if x.ID == id then { x with Status := status } else x)
  { w with transactions := rows }

/-- `userRepo.UpdateBalance`. -/
def updateUserBalance (w : World) (id : String) (newBalance : ℚ) : World :=
  let rows := w.users.map (fun u => if u.ID == id then { u with Balance := newBalance } else u)
  { w with users := rows }

/-- `supplierRepo.UpdateMetrics` applied to the stored supplier row. -/
def updateSupplierMetricsW (w : World) (id : String) (success : Bool)
    (responseTimeMs : Int) : World :=
  let rows := w.suppliers.map
    (fun s => if s.ID == id then updateMetricsSQL s success responseTimeMs else s)
  { w with suppliers := rows }

/-- The `ORDER BY priority ASC, supplier_price ASC` of
`GetActiveMappings`. -/
def mappingOrder (a b : ProductMapping) : Prop :=
  a.Priority < b.Priority ∨ (a.Priority = b.Priority ∧ a.SupplierPrice ≤ b.SupplierPrice)

instance : DecidableRel mappingOrder := fun a b =>
  inferInstanceAs (Decidable (a.Priority < b.Priority ∨
    (a.Priority = b.Priority ∧ a.SupplierPrice ≤ b.SupplierPrice)))

instance : IsTotal ProductMapping mappingOrder := by
  constructor
  intro a b
  rcases lt_trichotomy a.Priority b.Priority with h | h | h
  · exact Or.inl (Or.inl h)
  · rcases le_total a.SupplierPrice b.SupplierPrice with hp | hp
    · exact Or.inl (Or.inr ⟨h, hp⟩)
    · exact Or.inr (Or.inr ⟨h.symm, hp⟩)
  · exact Or.inr (Or.inl h)

instance : IsTrans ProductMapping mappingOrder := by
  constructor
  intro a b c hab hbc
  rcases hab with h1 | ⟨h1, h1p⟩
  · rcases hbc with h2 | ⟨h2, _⟩
    · exact Or.inl (h1.trans h2)
    · exact Or.inl (h2 ▸ h1)
  · rcases hbc with h2 | ⟨h2, h2p⟩
    · exact Or.inl (h1 ▸ h2)
    · exact Or.inr ⟨h1.trans h2, h1p.trans h2p⟩

/-- `productMappingRepo.GetActiveMappings`: active mappings of the
product, ordered by priority then supplier price. -/
def getActiveMappings (w : World) (productID : String) : List ProductMapping :=
  List.insertionSort mappingOrder
    (w.mappings.filter (fun m => m.ProductID == productID && m.IsActive))

/-- `createBalanceMutation`: append one ledger row (the mutation
repository is append-only). -/
def createBalanceMutation (env : Env) (w : World) (userID mtype : String)
    (amount balanceBefore balanceAfter : ℚ) (description : String)
    (referenceType referenceID : Option String) : World :=
  let row : Mutation :=
    { ID := env.newId, UserID := userID, Type_ := mtype, Amount := amount,
      BalanceBefore := balanceBefore, BalanceAfter := balanceAfter,
      Description := description, ReferenceType := referenceType,
      ReferenceID := referenceID }
  { w with mutations := w.mutations ++ [row] }

/-! ## Retry controller (`retry_uc.go`) -/

/-- `usecase.RetryConfig` (durations in nanoseconds). -/
structure RetryConfig where
  MaxAttempts : Int
  InitialDelay : Int
  MaxDelay : Int
  BackoffMultiplier : ℚ
  TimeoutPerAttempt : Int
  EnableJitter : Bool
  deriving Repr, DecidableEq

/-- `DefaultRetryConfig`. -/
def DefaultRetryConfig : RetryConfig :=
  { MaxAttempts := 3, InitialDelay := 2 * 1000000000, MaxDelay := 30 * 1000000000,
    BackoffMultiplier := 2, TimeoutPerAttempt := 30 * 1000000000, EnableJitter := true }

/-- The hard-coded 24-hour retry age limit of `canRetryTransaction`,
in nanoseconds. -/
def maxRetryAge : Int := 24 * 60 * 60 * 1000000000

/-- `canRetryTransaction`: status failed or timeout, attempts below
`MaxAttempts`, age at most 24 h. -/
def canRetryTransaction (t : Transaction) (cfg : RetryConfig) (now : Int) : Bool :=
  if t.Status != StatusFailed && t.Status != StatusTimeout then false
  else if decide (t.RoutingAttempts ≥ cfg.MaxAttempts) then false
  else if decide (now - t.CreatedAt > maxRetryAge) then false
  else true

/-- `calculateRetryDelay`: `initialDelay` times the hard-coded bit
shift `1 <<< (attempt − 1)` times `BackoffMultiplier`, truncated and
capped at `MaxDelay`; when jitter is enabled a fraction
`0.1 · (b / 255)` of the capped delay is added, where `b` is the byte
value of one random character. -/
def calculateRetryDelay (attempt : Nat) (cfg : RetryConfig) (jitterByte : Nat) : Int :=
  let multiplier : Nat := 2 ^ (attempt - 1)
  let delay : Int :=
    Int.floor (((cfg.InitialDelay : Int) : ℚ) * ((multiplier : Nat) : ℚ) * cfg.BackoffMultiplier)
  let delay := if delay > cfg.MaxDelay then cfg.MaxDelay else delay
  if cfg.EnableJitter then
    delay + Int.floor (((delay : Int) : ℚ) * (1 / 10) * (((jitterByte : Nat) : ℚ) / 255))
  else delay

/-- The wait performed before attempt `k` of the `RetryTransaction`
loop: nothing before the first attempt, and the
`calculateRetryDelay(k−1)` sleep taken at the end of iteration
`k − 1` otherwise. -/
def delayBeforeAttempt (k : Nat) (cfg : RetryConfig) (jitterByte : Nat) : Int :=
  if k ≤ 1 then 0 else calculateRetryDelay (k - 1) cfg jitterByte

/-- `usecase.RetryAttempt` — the fields the verified properties read. -/
structure RetryAttempt where
  AttemptNumber : Nat
  SupplierID : String
  SupplierCode : String
  Success : Bool
  deriving Repr, DecidableEq

/-- `usecase.RetryResult` — the fields the verified properties read. -/
structure RetryResult where
  Success : Bool
  AttemptsMade : Int
  FinalSupplierID : Option String
  FinalError : Option String
  AttemptHistory : List RetryAttempt
  RefundIssued : Bool
  RefundAmount : ℚ
  deriving Repr, DecidableEq

/-- Placeholder supplier for the (unreachable) out-of-range list read. -/
def dummySupplier : Supplier :=
  { ID := "", Code := "", IsActive := false, Priority := 0, Balance := 0,
    MinBalanceThreshold := 0, SuccessRate := 0, AvgResponseTimeMs := 0,
    TotalTransactions := 0, FailedTransactions := 0 }

/-- `getFailoverSuppliers`: best supplier plus alternatives from smart
routing with `PreferReliable`; the supplier tried by the failed
attempt is NOT excluded (the Go doc comment claims it is). -/
def getFailoverSuppliers (w : World) (productID : String) (maxCount : Int) :
    Option (List Supplier) :=
  match GetBestSupplier (getActiveMappings w productID) (findSupplierW w)
      (some { PriorityOnly := false, PreferCheapest := false, PreferFastest := false,
              PreferReliable := true, MaxSuppliers := maxCount, MinSuccessRate := 50 }) with
  | none => none
  | some result => some (result.SelectedSupplier :: result.Alternatives)

/-- `executeRetryAttempt`: persist the processing state, call the
supplier (outcome supplied by the oracle), and persist success or
failure.  Response times are modelled as 0 ms. -/
def executeRetryAttempt (env : Env) (w : World) (t : Transaction)
    (supplier : Supplier) (attemptNumber : Nat) (outcome : Bool) :
    World × Transaction × RetryAttempt :=
  let t := { t with SupplierID := some supplier.ID, Status := StatusProcessing,
                    ProcessedAt := some env.now }
  let w := updateTrx w t
  if outcome then
    let t := { t with Status := StatusSuccess, SerialNumber := some env.serial,
                      SupplierMessage := some "Transaction successful via retry",
                      FinalSupplierID := some supplier.ID, CompletedAt := some env.now }
    let w := updateTrx w t
    let w := updateSupplierMetricsW w supplier.ID true 0
    (w, t, { AttemptNumber := attemptNumber, SupplierID := supplier.ID,
             SupplierCode := supplier.Code, Success := true })
  else
    let t := { t with Status := StatusFailed,
                      SupplierMessage := some ("Retry attempt " ++ toString attemptNumber ++ " failed"),
                      CompletedAt := some env.now }
    let w := updateTrx w t
    (w, t, { AttemptNumber := attemptNumber, SupplierID := supplier.ID,
             SupplierCode := supplier.Code, Success := false })

/-- Result of the `RetryTransaction` attempt loop. -/
structure RetryLoopOut where
  w : World
  t : Transaction
  history : List RetryAttempt
  made : Int
  successSupplier : Option String
  deriving Repr

/-- The `for attempt := 1; attempt <= config.MaxAttempts` loop of
`RetryTransaction`: run `executeRetryAttempt`, overwrite
`RoutingAttempts` with the current attempt number, persist, stop on
success, otherwise record the failure in the supplier metrics and
continue (the inter-attempt sleep has no state effect). -/
def retryLoop (env : Env) (suppliers : List Supplier) (outcomes : List Bool) :
    Nat → Nat → World → Transaction → List RetryAttempt → Int → RetryLoopOut
  | 0, _, w, t, history, made => ⟨w, t, history, made, none⟩
  | fuel + 1, att, w, t, history, made =>
    if att > suppliers.length then ⟨w, t, history, made, none⟩
    else
      let supplier := (suppliers.drop (att - 1)).headD dummySupplier
      let outcome := outcomes.getD (att - 1) false
      let out := executeRetryAttempt env w t supplier att outcome
      let t := { out.2.1 with RoutingAttempts := (att : Int) }
      let w := updateTrx out.1 t
      let history := history ++ [out.2.2]
      if outcome then ⟨w, t, history, (att : Int), some supplier.ID⟩
      else
        let w := updateSupplierMetricsW w supplier.ID false 0
        retryLoop env suppliers outcomes fuel (att + 1) w t history (att : Int)

/-- `issueRefund` of the retry controller: mark the transaction
`REFUND`.  The source only updates the transaction record; the
balance refund is left as a `TODO` ("Implement actual balance refund
logic — this should create a mutation and update user balance"), so
no ledger mutation is written. -/
def issueRefund (env : Env) (w : World) (t : Transaction) : World × Transaction :=
  let t := { t with Status := StatusRefund,
                    SupplierMessage := some "Auto refund after retry failure",
                    CompletedAt := some env.now }
  (updateTrx w t, t)

/-- `RetryTransaction`: gate on `canRetryTransaction`, collect the
failover suppliers, run the attempt loop, and on exhaustion issue the
refund.  `none` models the `transaction not found` error return. -/
def RetryTransaction (env : Env) (w : World) (transactionID : String)
    (config? : Option RetryConfig) : World × Option RetryResult :=
  let config := config?.getD DefaultRetryConfig
  match findTrx w transactionID with
  | none => (w, none)
  | some t =>
    if !canRetryTransaction t config env.now then
      (w, some { Success := false, AttemptsMade := t.RoutingAttempts,
                 FinalSupplierID := none,
                 FinalError := some "transaction cannot be retried",
                 AttemptHistory := [],
                 RefundIssued := t.Status == StatusRefund, RefundAmount := 0 })
    else
      match getFailoverSuppliers w t.ProductID config.MaxAttempts with
      | none =>
        (w, some { Success := false, AttemptsMade := 0, FinalSupplierID := none,
                   FinalError := some "failed to get suppliers",
                   AttemptHistory := [], RefundIssued := false,
                   RefundAmount := t.SellingPrice })
      | some suppliers =>
        let out := retryLoop env suppliers env.retryOutcomes config.MaxAttempts.toNat 1 w t [] 0
        match out.successSupplier with
        | some sid =>
          (out.w, some { Success := true, AttemptsMade := out.made,
                         FinalSupplierID := some sid, FinalError := none,
                         AttemptHistory := out.history, RefundIssued := false,
                         RefundAmount := t.SellingPrice })
        | none =>
          let res := issueRefund env out.w out.t
          (res.1, some { Success := false, AttemptsMade := out.made,
                         FinalSupplierID := none,
                         FinalError := some "all retry attempts failed",
                         AttemptHistory := out.history, RefundIssued := true,
                         RefundAmount := t.SellingPrice })

/-! ## Transaction orchestrator (`transaction_uc.go`) -/

/-- `selectSupplier`: delegate to smart routing with `nil` criteria;
`none` models every error return (routing failed, no supplier, no
mapping). -/
def selectSupplier (w : World) (t : Transaction) : Option (Supplier × ProductMapping) :=
  match GetBestSupplier (getActiveMappings w t.ProductID) (findSupplierW w) none with
  | none => none
  | some result =>
    match result.SelectedMapping with
    | none => none
    | some mapping => some (result.SelectedSupplier, mapping)

/-- `refundTransaction` (private helper of the orchestrator): write a
debit-type mutation for the selling price, restore the balance, mark
the record `REFUND`.  The `Option String` is the error return. -/
def refundTransactionF (env : Env) (w : World) (t : Transaction) :
    World × Option String :=
  match findUserW w t.UserID with
  | none => (w, some "failed to get user for refund")
  | some user =>
    let w := createBalanceMutation env w user.ID MutationTypeDebit t.SellingPrice
      user.Balance (user.Balance + t.SellingPrice)
      ("Refund transaksi gagal " ++ t.TrxCode)
      (some ReferenceTypeTransaction) (some t.ID)
    let w := updateUserBalance w user.ID (user.Balance + t.SellingPrice)
    let t := { t with Status := StatusRefund,
                      SupplierMessage := some "Transaction refunded due to failure",
                      CompletedAt := some env.now }
    (updateTrx w t, none)

/-- `handleSupplierFailure`: persist the failure, delegate to the
retry controller, and when the retry neither succeeded nor reported a
refund, refund through the ledger.  Returns the orchestrator's error
value. -/
def handleSupplierFailure (env : Env) (w : World) (t : Transaction)
    (reason : String) : World × Option String :=
  let t := { t with Status := StatusFailed, SupplierMessage := some reason,
                    CompletedAt := some env.now }
  let w := updateTrx w t
  let retried := RetryTransaction env w t.ID none
  let w := retried.1
  let handled :=
    match retried.2 with
    | some res => res.Success || res.RefundIssued
    | none => false
  if handled then (w, none)
  else
    let refunded := refundTransactionF env w t
    match refunded.2 with
    | some e => (refunded.1, some ("failed to refund transaction after supplier failure: " ++ e))
    | none => (refunded.1, some ("supplier failure: " ++ reason))

/-- `executeSupplierTransaction`: resolve the adapter, call `TopUp`
(answer supplied by the oracle; `none` models a transport error),
record the supplier metrics, and settle the transaction.  Wall-clock
response times are modelled as 0 ms. -/
def executeSupplierTransaction (env : Env) (w : World) (t : Transaction)
    (supplier : Supplier) : World × Option String :=
  if !(env.adapterRegistered supplier.Code) then
    handleSupplierFailure env w t ("adapter for " ++ supplier.Code ++ " not found")
  else
    match env.topUpResponse with
    | none =>
      let w := updateSupplierMetricsW w supplier.ID false 0
      handleSupplierFailure env w t "supplier error"
    | some resp =>
      let responseTime := if resp.ResponseTime > 0 then resp.ResponseTime else 0
      let w := updateSupplierMetricsW w supplier.ID resp.Success responseTime
      if !resp.Success then
        let msg := if resp.Message == "" then "supplier returned failure" else resp.Message
        handleSupplierFailure env w t msg
      else
        let serial := if resp.SerialNumber == "" then resp.TrxID else resp.SerialNumber
        let t := if serial == "" then t else { t with SerialNumber := some serial }
        let t := if resp.Message == "" then t else { t with SupplierMessage := some resp.Message }
        let t := if resp.TrxID == "" then t else { t with SupplierTrxID := some resp.TrxID }
        let t := { t with Status := StatusSuccess, FinalSupplierID := some supplier.ID,
                          CompletedAt := some env.now }
        (updateTrx w t, none)

/-- `ProcessTransaction`: gate on `PENDING`, move to `PROCESSING`,
re-check the balance, route, debit (credit-type mutation plus balance
update), and call the supplier. -/
def ProcessTransaction (env : Env) (w : World) (transactionID : String) :
    World × Option String :=
  match findTrx w transactionID with
  | none => (w, some "transaction not found")
  | some t =>
    if t.Status != StatusPending then (w, some "transaction is not in pending status")
    else
      let t := { t with ProcessedAt := some env.now }
      let w := updateTrxStatus w t.ID StatusProcessing
      match findUserW w t.UserID with
      | none => (w, some "failed to get user")
      | some user =>
        if !user.HasSufficientBalance t.SellingPrice then
          let t := { t with Status := StatusFailed,
                            SupplierMessage := some "Insufficient balance" }
          (updateTrx w t, some "insufficient balance")
        else
          match selectSupplier w t with
          | none => handleSupplierFailure env w t "routing error"
          | some sel =>
            let t := { t with SupplierID := some sel.1.ID }
            let w := createBalanceMutation env w user.ID MutationTypeCredit t.SellingPrice
              user.Balance (user.Balance - t.SellingPrice)
              ("Pembelian " ++ t.ProductCode ++ " " ++ String.mk t.DestinationNumber)
              (some ReferenceTypeTransaction) (some t.ID)
            let w := updateUserBalance w user.ID (user.Balance - t.SellingPrice)
            executeSupplierTransaction env w t sel.1

/-- `CreateTransaction`: validate, price, gate on spending power, then
persist the `PENDING` record and enqueue its id. -/
def CreateTransaction (env : Env) (w : World) (userID productCode : String)
    (destinationNumber : List Char) : World × Except String Transaction :=
  if userID == "" || productCode == "" || destinationNumber.isEmpty then
    (w, Except.error "missing required fields")
  else if !ValidatePhoneNumber destinationNumber then
    (w, Except.error "invalid phone number format")
  else
    match findUserW w userID with
    | none => (w, Except.error "user not found")
    | some user =>
      if !user.IsActive then (w, Except.error "user account is not active")
      else
        match findProductByCode w productCode with
        | none => (w, Except.error "product not found")
        | some product =>
          if !product.IsActive then (w, Except.error "product is not available")
          else
            let basePrice := product.BasePrice
            let sellingPrice := user.GetEffectivePrice basePrice
            if decide (sellingPrice < product.MinPrice) ||
                decide (sellingPrice > product.MaxTransactionAmount) then
              (w, Except.error "price out of allowed range")
            else if !user.HasSufficientBalance sellingPrice then
              (w, Except.error "insufficient balance")
            else
              let t : Transaction :=
                { ID := env.newId, TrxCode := env.newTrxCode, UserID := userID,
                  ProductID := product.ID, SupplierID := none,
                  DestinationNumber := ParsePhoneNumber destinationNumber,
                  ProductCode := productCode, HPP := basePrice,
                  SellingPrice := sellingPrice, AdminFee := 0,
                  Status := StatusPending, SerialNumber := none,
                  SupplierMessage := none, SupplierTrxID := none,
                  RoutingAttempts := 0, FinalSupplierID := none,
                  CreatedAt := env.now, ProcessedAt := none, CompletedAt := none }
              let w := { w with transactions := w.transactions ++ [t] }
              let w := { w with queue := w.queue ++ [t.ID] }
              (w, Except.ok t)

/-- `CancelTransaction`: only `PENDING` records may be cancelled; the
refund branch the source guards with `Status == PROCESSING` right
after setting the status to `FAILED` is kept verbatim (it never
fires). -/
def CancelTransaction (env : Env) (w : World) (transactionID : String) :
    World × Option String :=
  match findTrx w transactionID with
  | none => (w, some "transaction not found")
  | some t =>
    if t.Status != StatusPending then
      (w, some ("cannot cancel transaction in " ++ t.Status ++ " status"))
    else
      let t := { t with Status := StatusFailed,
                        SupplierMessage := some "Transaction cancelled by user" }
      let w := updateTrx w t
      let w := if t.Status == StatusProcessing then (refundTransactionF env w t).1 else w
      (w, none)

/-- `RetryFailedTransaction`: gate on `Transaction.CanRetry` (hard-coded
limit 3), increment the attempt counter, reset to `PENDING`, and
re-process. -/
def RetryFailedTransaction (env : Env) (w : World) (transactionID : String) :
    World × Option String :=
  match findTrx w transactionID with
  | none => (w, some "transaction not found")
  | some t =>
    if !t.CanRetry then (w, some "transaction cannot be retried")
    else
      let t := { t with RoutingAttempts := t.RoutingAttempts + 1 }
      let w := updateTrx w t
      let w := updateTrxStatus w transactionID StatusPending
      ProcessTransaction env w transactionID

/-- `RefundTransaction` (public): refund by id, with no status gate. -/
def RefundTransaction (env : Env) (w : World) (transactionID : String) :
    World × Option String :=
  match findTrx w transactionID with
  | none => (w, some "transaction not found")
  | some t => refundTransactionF env w t

/-! ## Fixtures for concrete evaluations -/

/-- A healthy supplier used by the concrete scenarios. -/
def sampleSupplier : Supplier :=
  { ID := "s1", Code := "SUP1", IsActive := true, Priority := 1, Balance := 1000,
    MinBalanceThreshold := 0, SuccessRate := 100, AvgResponseTimeMs := 0,
    TotalTransactions := 0, FailedTransactions := 0 }

/-- An active, in-stock mapping of product `p1` to supplier `s1`. -/
def sampleMapping : ProductMapping :=
  { ID := "m1", ProductID := "p1", SupplierID := "s1", SupplierProductCode := "SP1",
    SupplierPrice := 0, AdditionalFee := 0, Priority := 1, IsActive := true,
    StockStatus := StockStatusAvailable, SuccessCount := 0, FailureCount := 0 }

/-- An active agent-level user. -/
def sampleUser : User :=
  { ID := "u1", IsActive := true, Balance := 50000, CreditLimit := 0,
    MarkupPercentage := 0, AllowDebt := false, Level := 2 }

/-- A failed purchase of product `p1` by `u1`, already attempted at
supplier `s1`. -/
def baseTrx : Transaction :=
  { ID := "t1", TrxCode := "TRX-20260101-0001", UserID := "u1", ProductID := "p1",
    SupplierID := some "s1", DestinationNumber := [], ProductCode := "P1",
    HPP := 9800, SellingPrice := 10000, AdminFee := 0, Status := StatusFailed,
    SerialNumber := none, SupplierMessage := none, SupplierTrxID := none,
    RoutingAttempts := 0, FinalSupplierID := none, CreatedAt := 0,
    ProcessedAt := none, CompletedAt := none }

/-- Oracle where every supplier call fails. -/
def envAllFail : Env :=
  { now := 0, newId := "id-1", newTrxCode := "TRX-20260101-0002", serial := "SN1",
    adapterRegistered := fun _ => true, topUpResponse := none,
    retryOutcomes := [false, false, false] }

/-- Oracle where the first supplier call succeeds. -/
def envFirstOk : Env := { envAllFail with retryOutcomes := [true] }

/-! ## C4 — retry backoff schedule -/

/-- The default configuration with jitter disabled (the setting of the
spec's concrete schedule). -/
def cfgNoJitter : RetryConfig := { DefaultRetryConfig with EnableJitter := false }

/-- C4 counterexample: with the default configuration and jitter off,
the waits before attempts 1..5 are [0, 4, 8, 16, 30] seconds — not
the [0, 2, 4, 8, 16] seconds the claim states (the code multiplies
`InitialDelay` both by the hard-coded shift `2^(k−1)` and by
`BackoffMultiplier`). -/
theorem backoff_schedule_counterexample :
    ((List.range 5).map (fun i => delayBeforeAttempt (i + 1) cfgNoJitter 0)
      = [0, 4000000000, 8000000000, 16000000000, 30000000000]) ∧
    ((List.range 5).map (fun i => delayBeforeAttempt (i + 1) cfgNoJitter 0)
      ≠ [0, 2000000000, 4000000000, 8000000000, 16000000000]) := by
  with_unfolding_all decide

/-- C4 amended: with jitter disabled the wait before attempt 1 is 0,
and the wait before attempt `k ≥ 2` is
`min(⌊initialDelay · 2^(k−2) · backoffMultiplier⌋, maxDelay)`; with
the default configuration this gives [0, 4, 8, 16, 30] seconds before
attempts 1..5. -/
theorem backoff_schedule_amended (cfg : RetryConfig) (k : Nat) (hk : 2 ≤ k)
    (hj : cfg.EnableJitter = false) (b : Nat) :
    delayBeforeAttempt k cfg b =
      min (Int.floor (((cfg.InitialDelay : Int) : ℚ) * ((2 ^ (k - 2) : Nat) : ℚ) *
        cfg.BackoffMultiplier)) cfg.MaxDelay ∧
    delayBeforeAttempt 1 cfg b = 0 ∧
    ((List.range 5).map (fun i => delayBeforeAttempt (i + 1) cfgNoJitter 0)
      = [0, 4000000000, 8000000000, 16000000000, 30000000000]) := by
  refine ⟨?_, by simp [delayBeforeAttempt], by with_unfolding_all decide⟩
  have hk1 : ¬(k ≤ 1) := by omega
  have hsub : k - 1 - 1 = k - 2 := by omega
  simp only [delayBeforeAttempt, if_neg hk1, calculateRetryDelay, hj,
    Bool.false_eq_true, if_false, hsub]
  rcases le_or_lt
      (Int.floor (((cfg.InitialDelay : Int) : ℚ) * ((2 ^ (k - 2) : Nat) : ℚ) *
        cfg.BackoffMultiplier)) cfg.MaxDelay with h | h
  · rw [if_neg (not_lt.mpr h), min_eq_left h]
  · rw [if_pos h, min_eq_right h.le]

/-- C4 witness: the amended statement at `k = 3` with the default
no-jitter configuration. -/
theorem backoff_schedule_amended_witness :
    delayBeforeAttempt 3 cfgNoJitter 0 =
      min (Int.floor (((cfgNoJitter.InitialDelay : Int) : ℚ) * ((2 ^ (3 - 2) : Nat) : ℚ) *
        cfgNoJitter.BackoffMultiplier)) cfgNoJitter.MaxDelay ∧
    delayBeforeAttempt 1 cfgNoJitter 0 = 0 ∧
    ((List.range 5).map (fun i => delayBeforeAttempt (i + 1) cfgNoJitter 0)
      = [0, 4000000000, 8000000000, 16000000000, 30000000000]) :=
  backoff_schedule_amended cfgNoJitter 3 (by decide) rfl 0

/-! ## C1 — refund on retry exhaustion never reaches the ledger -/

/-- State of a transaction that was debited (one credit-type mutation
referencing it) and then failed: the input of the exhaustion run. -/
def c1World : World :=
  { users := [sampleUser], products := [], suppliers := [sampleSupplier],
    mappings := [sampleMapping],
    transactions := [baseTrx],
    mutations := [{ ID := "mu1", UserID := "u1", Type_ := MutationTypeCredit,
                    Amount := 10000, BalanceBefore := 60000, BalanceAfter := 50000,
                    Description := "d", ReferenceType := some ReferenceTypeTransaction,
                    ReferenceID := some "t1" }],
    queue := [] }

/-- C1: evaluating the retry controller at a debited, failed
transaction whose every retry attempt fails: the controller reports
`RefundIssued = true` and moves the record to `REFUND`, yet the
mutation table is untouched — in particular no debit-type mutation
with amount `selling_price` and `reference_id = t1` exists, so the
refund never reaches the ledger (the source's `issueRefund` carries a
`TODO` for exactly this). -/
theorem retry_exhaustion_refund_without_ledger :
    ((RetryTransaction envAllFail c1World "t1" none).2.map (fun r => r.RefundIssued)
      = some true) ∧
    ((RetryTransaction envAllFail c1World "t1" none).2.map (fun r => r.Success)
      = some false) ∧
    ((findTrx (RetryTransaction envAllFail c1World "t1" none).1 "t1").map
      (fun t => t.Status) = some StatusRefund) ∧
    (RetryTransaction envAllFail c1World "t1" none).1.mutations = c1World.mutations ∧
    ((c1World.mutations.filter
      (fun m => m.Type_ == MutationTypeDebit && m.ReferenceID == some "t1")).length = 0) := by
  norm_num [RetryTransaction, findTrx, canRetryTransaction, maxRetryAge, DefaultRetryConfig,
    getFailoverSuppliers, GetBestSupplier, rankedScores, candidateScores, healthyCandidates,
    getActiveMappings, calculateSupplierScore, calculateConfidence,
    calculateRecentPerformanceScore, generateReason, findSupplierW, Supplier.IsHealthy,
    MinSuccessRateThreshold, List.insertionSort, List.orderedInsert, scoreGE, mappingOrder,
    retryLoop, executeRetryAttempt, updateTrx, updateSupplierMetricsW, updateMetricsSQL,
    issueRefund, c1World, envAllFail, sampleSupplier, sampleMapping, baseTrx, sampleUser,
    StatusFailed, StatusTimeout, StatusRefund, StatusProcessing, StatusSuccess,
    StockStatusAvailable, StockStatusOutOfStock, StockStatusUnknown, MutationTypeCredit,
    MutationTypeDebit, ReferenceTypeTransaction, List.find?, List.filter]
  all_goals decide

/-! ## C6 — the failover list contains the already-tried supplier -/

/-- State after a failed attempt at supplier `s1` (the transaction's
`supplier_id` records the tried supplier). -/
def c6World : World :=
  { users := [sampleUser], products := [], suppliers := [sampleSupplier],
    mappings := [sampleMapping], transactions := [baseTrx], mutations := [], queue := [] }

/-- C6: the failover list built for the retry of `t1` — whose failed
attempt used supplier `s1` — is exactly `[s1]`: the already-tried
supplier is not excluded (it even heads the list), although the
source's own comment on `getFailoverSuppliers` says previously tried
suppliers are excluded. -/
theorem failover_list_contains_tried_supplier :
    ((findTrx c6World "t1").bind (fun t => t.SupplierID) = some "s1") ∧
    ((getFailoverSuppliers c6World "p1" 3).map (List.map Supplier.ID) = some ["s1"]) := by
  norm_num [getFailoverSuppliers, GetBestSupplier, rankedScores, candidateScores,
    healthyCandidates, getActiveMappings, calculateSupplierScore, calculateConfidence,
    calculateRecentPerformanceScore, generateReason, findSupplierW, findTrx,
    Supplier.IsHealthy, MinSuccessRateThreshold, sampleMapping, sampleSupplier, c6World,
    baseTrx, sampleUser, List.insertionSort, List.orderedInsert, List.find?, List.filter,
    scoreGE, mappingOrder, StockStatusAvailable, StockStatusOutOfStock, StockStatusUnknown,
    StatusFailed]

/-! ## C2 — TIMEOUT is not a terminal fixpoint -/

/-- A timed-out transaction, fresh enough to be retried. -/
def c2World : World :=
  { users := [sampleUser], products := [], suppliers := [sampleSupplier],
    mappings := [sampleMapping],
    transactions := [{ baseTrx with Status := StatusTimeout }],
    mutations := [], queue := [] }

/-- C2 counterexample: a `TIMEOUT` transaction is accepted by the
retry controller (`canRetryTransaction` allows failed OR timeout) and
ends the run as `SUCCESS`: its status changed after reaching the
allegedly terminal `TIMEOUT`. -/
theorem timeout_status_changed_by_retry :
    ((findTrx c2World "t1").map (fun t => t.Status) = some StatusTimeout) ∧
    ((findTrx (RetryTransaction envFirstOk c2World "t1" none).1 "t1").map
      (fun t => t.Status) = some StatusSuccess) ∧
    StatusSuccess ≠ StatusTimeout := by
  norm_num [RetryTransaction, findTrx, canRetryTransaction, maxRetryAge, DefaultRetryConfig,
    getFailoverSuppliers, GetBestSupplier, rankedScores, candidateScores, healthyCandidates,
    getActiveMappings, calculateSupplierScore, calculateConfidence,
    calculateRecentPerformanceScore, generateReason, findSupplierW, Supplier.IsHealthy,
    MinSuccessRateThreshold, List.insertionSort, List.orderedInsert, scoreGE, mappingOrder,
    retryLoop, executeRetryAttempt, updateTrx, updateSupplierMetricsW, updateMetricsSQL,
    issueRefund, c2World, envFirstOk, envAllFail, sampleSupplier, sampleMapping, baseTrx,
    sampleUser, StatusFailed, StatusTimeout, StatusRefund, StatusProcessing, StatusSuccess,
    StockStatusAvailable, StockStatusOutOfStock, StockStatusUnknown, List.find?, List.filter]
  all_goals decide

/-! ## C3 — the retry loop rewinds the attempt counter -/

/-- A failed transaction that has already used two routing attempts. -/
def c3World : World :=
  { users := [sampleUser], products := [], suppliers := [sampleSupplier],
    mappings := [sampleMapping],
    transactions := [{ baseTrx with RoutingAttempts := 2 }],
    mutations := [], queue := [] }

/-- C3 counterexample: retrying a failed transaction whose
`routing_attempts` is already 2 overwrites the counter with the
1-based index of the current attempt: after the run the stored value
is 1 < 2 — the counter decreased. -/
theorem routing_attempts_decreased_by_retry :
    ((findTrx c3World "t1").map (fun t => t.RoutingAttempts) = some 2) ∧
    ((findTrx (RetryTransaction envAllFail c3World "t1" none).1 "t1").map
      (fun t => t.RoutingAttempts) = some 1) ∧
    (1 : Int) < 2 := by
  norm_num [RetryTransaction, findTrx, canRetryTransaction, maxRetryAge, DefaultRetryConfig,
    getFailoverSuppliers, GetBestSupplier, rankedScores, candidateScores, healthyCandidates,
    getActiveMappings, calculateSupplierScore, calculateConfidence,
    calculateRecentPerformanceScore, generateReason, findSupplierW, Supplier.IsHealthy,
    MinSuccessRateThreshold, List.insertionSort, List.orderedInsert, scoreGE, mappingOrder,
    retryLoop, executeRetryAttempt, updateTrx, updateSupplierMetricsW, updateMetricsSQL,
    issueRefund, c3World, envAllFail, sampleSupplier, sampleMapping, baseTrx, sampleUser,
    StatusFailed, StatusTimeout, StatusRefund, StatusProcessing, StatusSuccess,
    StockStatusAvailable, StockStatusOutOfStock, StockStatusUnknown, List.find?, List.filter]

/-! ## C5 — ranking ties are not broken by priority or id -/

/-- Supplier `a`: lexicographically smaller id. -/
def supplierA : Supplier := { sampleSupplier with ID := "a", Code := "SA" }

/-- Supplier `b`: same priority as `a`, larger id. -/
def supplierB : Supplier := { sampleSupplier with ID := "b", Code := "SB" }

/-- Mapping to supplier `b`, listed first (mapping priority 1). -/
def mappingB : ProductMapping := { sampleMapping with ID := "mb", SupplierID := "b" }

/-- Mapping to supplier `a`, listed second (mapping priority 2). -/
def mappingA : ProductMapping :=
  { sampleMapping with ID := "ma", SupplierID := "a", Priority := 2 }

/-- Supplier lookup for the tie scenario. -/
def tieLookup (id : String) : Option Supplier :=
  if id == "a" then some supplierA else if id == "b" then some supplierB else none

/-- Priority-only criteria: both candidates score exactly `1/priority`. -/
def tieCriteria : RoutingCriteria :=
  { PriorityOnly := true, PreferCheapest := false, PreferFastest := false,
    PreferReliable := false, MaxSuppliers := 5, MinSuccessRate := 0 }

set_option maxRecDepth 8000 in
/-- C5 counterexample: suppliers `a` and `b` have equal total score and
equal priority, and `"a" < "b"` lexicographically, so the claimed
tie-break selects `a`; the code returns `b` (ties keep the order of
the mapping list — the `sort.Slice` comparator looks at the total
score only). -/
theorem routing_tiebreak_counterexample :
    ((GetBestSupplier [mappingB, mappingA] tieLookup (some tieCriteria)).map
      (fun r => r.SelectedSupplier.ID) = some "b") ∧
    (calculateSupplierScore supplierA [mappingB, mappingA] tieCriteria).TotalScore
      = (calculateSupplierScore supplierB [mappingB, mappingA] tieCriteria).TotalScore ∧
    supplierA.Priority = supplierB.Priority ∧
    "a".toList < "b".toList ∧ ("b" : String) ≠ "a" := by
  refine ⟨?_, ?_, by decide, by decide, by decide⟩ <;>
    with_unfolding_all decide

/-- C5 amended: the ranked candidate list is sorted by non-increasing
total score and is a permutation of the scored candidates; nothing
more — equal scores keep the candidate (mapping) order, with no
tie-break on supplier priority or id.  Determinism holds because the
ranking is a pure function of (mappings, supplier lookup, criteria). -/
theorem routing_rank_sorted_amended (mappings : List ProductMapping)
    (f : String → Option Supplier) (criteria : RoutingCriteria) :
    List.Sorted scoreGE (rankedScores mappings f criteria) ∧
    (rankedScores mappings f criteria).Perm (candidateScores mappings f criteria) :=
  ⟨List.sorted_insertionSort scoreGE _, List.perm_insertionSort scoreGE _⟩

/-! ## C8 — phone normalization and validation -/

/-- C8: the two concrete normalizations of the spec, and the exact
acceptance condition: the normalized number must start with `62` and
have 11 to 15 digits in total (9 to 13 after the prefix). -/
theorem phone_normalization_and_validation :
    ParsePhoneNumber ("0812-3456-789".toList) = "628123456789".toList ∧
    ParsePhoneNumber ("+628123456789".toList) = "628123456789".toList ∧
    ValidatePhoneNumber ("0812-3456-789".toList) = true ∧
    ValidatePhoneNumber ("+62812345".toList) = false ∧
    (∀ p : List Char, ValidatePhoneNumber p = true ↔
      ((['6', '2'].isPrefixOf (ParsePhoneNumber p)) = true ∧
        11 ≤ (ParsePhoneNumber p).length ∧ (ParsePhoneNumber p).length ≤ 15)) := by
  refine ⟨by decide, by decide, by decide, by decide, ?_⟩
  intro p
  unfold ValidatePhoneNumber
  generalize ParsePhoneNumber p = n
  rcases n with _ | ⟨c1, _ | ⟨c2, rest⟩⟩
  · simp [List.isPrefixOf]
  · simp [List.isPrefixOf]
  · by_cases h1 : c1 = '6'
    · by_cases h2 : c2 = '2'
      · simp only [h1, h2, List.isPrefixOf, List.length_cons, List.drop]
        simp only [beq_self_eq_true, Bool.true_and, Bool.not_true, Bool.false_eq_true,
          if_false, Bool.and_eq_true, decide_eq_true_iff]
        constructor
        · rintro ⟨ha, hb⟩
          exact ⟨trivial, by omega, by omega⟩
        · rintro ⟨-, ha, hb⟩
          exact ⟨by omega, by omega⟩
      · have : (c2 == '2') = false := by simpa using h2
        simp [List.isPrefixOf, this]
    · have : (c1 == '6') = false := by simpa using h1
      simp [List.isPrefixOf, this]

/-! ## C9 — supplier metrics update -/

/-- C9 counterexample: after a first observation of 0 ms the average
is still 0, so a second observation of 500 ms re-seeds the average to
500 instead of the claimed EWMA value `⌊0.7·0 + 0.3·500⌋ = 150`: the
code seeds whenever the current average is 0, not only on the first
observation. -/
theorem ewma_reseed_counterexample :
    ((sampleSupplier.UpdatePerformanceMetrics true 0).AvgResponseTimeMs = 0) ∧
    (((sampleSupplier.UpdatePerformanceMetrics true 0).UpdatePerformanceMetrics true
      500).AvgResponseTimeMs = 500) ∧
    Int.floor ((((sampleSupplier.UpdatePerformanceMetrics true 0).AvgResponseTimeMs :
      Int) : ℚ) * (7 / 10) + ((500 : Int) : ℚ) * (3 / 10)) = 150 ∧
    (500 : Int) ≠ 150 := by
  refine ⟨?_, ?_, ?_, by decide⟩ <;>
    with_unfolding_all decide

/-- C9 amended: every metrics update increments the transaction count,
increments the failure count exactly on failures, recomputes the
success rate as `(total − failed)/total · 100`, and updates the
average response time by re-seeding with the observation whenever the
current average is 0 (hence with the first observation) and by the
truncated EWMA `⌊0.7·old + 0.3·new⌋` otherwise; concretely
0 →(500)→ 500 →(100)→ 380. -/
theorem update_metrics_amended (s : Supplier) (success : Bool) (rt : Int) :
    ((s.UpdatePerformanceMetrics success rt).TotalTransactions
      = s.TotalTransactions + 1) ∧
    ((s.UpdatePerformanceMetrics success rt).FailedTransactions
      = s.FailedTransactions + (if success then 0 else 1)) ∧
    ((s.UpdatePerformanceMetrics success rt).SuccessRate
      = (if s.TotalTransactions + 1 > 0 then
          ((s.TotalTransactions + 1 -
            (if success then s.FailedTransactions else s.FailedTransactions + 1) : Int) : ℚ)
            / ((s.TotalTransactions + 1 : Int) : ℚ) * 100
         else s.SuccessRate)) ∧
    ((s.UpdatePerformanceMetrics success rt).AvgResponseTimeMs
      = (if s.AvgResponseTimeMs = 0 then rt
         else Int.floor (((s.AvgResponseTimeMs : Int) : ℚ) * (7 / 10) +
           ((rt : Int) : ℚ) * (3 / 10)))) ∧
    ((sampleSupplier.UpdatePerformanceMetrics true 500).AvgResponseTimeMs = 500) ∧
    (((sampleSupplier.UpdatePerformanceMetrics true 500).UpdatePerformanceMetrics true
      100).AvgResponseTimeMs = 380) := by
  refine ⟨?_, ?_, ?_, ?_, by with_unfolding_all decide, by with_unfolding_all decide⟩ <;>
  · cases success <;> dsimp only [Supplier.UpdatePerformanceMetrics] <;>
      split_ifs <;> simp_all

/-! ## C10 — the hard-coded retry gate -/

/-- The timed-out transaction used to witness the gate. -/
def c10Trx : Transaction := { baseTrx with Status := StatusTimeout }

/-- C10: `CanRetry` holds exactly for `FAILED` transactions with fewer
than the hard-coded 3 routing attempts (no configuration is
consulted), and when it fails `RetryFailedTransaction` returns the
error and leaves the world untouched. -/
theorem canretry_hardcoded_and_gate (t : Transaction) (env : Env) (w : World)
    (id : String) (ht : findTrx w id = some t) (hno : t.CanRetry = false) :
    (t.CanRetry = true ↔ (t.Status = StatusFailed ∧ t.RoutingAttempts < 3)) ∧
    RetryFailedTransaction env w id = (w, some "transaction cannot be retried") := by
  constructor
  · simp [Transaction.CanRetry]
  · unfold RetryFailedTransaction
    rw [ht]
    simp [hno]

/-- C10 witness: the gate at a concrete `TIMEOUT` transaction with 0
attempts — not retryable, and the operation rejects it unchanged. -/
theorem canretry_hardcoded_and_gate_witness :
    (c10Trx.CanRetry = true ↔ (c10Trx.Status = StatusFailed ∧ c10Trx.RoutingAttempts < 3)) ∧
    RetryFailedTransaction envAllFail c2World "t1"
      = (c2World, some "transaction cannot be retried") :=
  canretry_hardcoded_and_gate c10Trx envAllFail c2World "t1" (by decide) (by decide)

/-! ## C2 amended — SUCCESS and REFUND are fixpoints of the operations -/

/-- C2 amended: once a transaction is `SUCCESS` or `REFUND`, the
processing, cancel and retry operations reject it and leave the
stored state untouched (`TIMEOUT`, by contrast, is retryable — see
the counterexample — and the unguarded `RefundTransaction` endpoint
can still rewrite any status). -/
theorem terminal_success_refund_fixpoint (env : Env) (w : World) (id : String)
    (t : Transaction) (cfg? : Option RetryConfig) (ht : findTrx w id = some t)
    (hs : t.Status = StatusSuccess ∨ t.Status = StatusRefund) :
    ProcessTransaction env w id = (w, some "transaction is not in pending status") ∧
    (CancelTransaction env w id).1 = w ∧
    (CancelTransaction env w id).2.isSome = true ∧
    RetryFailedTransaction env w id = (w, some "transaction cannot be retried") ∧
    (RetryTransaction env w id cfg?).1 = w := by
  have hP : (t.Status != StatusPending) = true := by
    rcases hs with h | h <;> simp [h, StatusSuccess, StatusRefund, StatusPending]
  have hCR : t.CanRetry = false := by
    rcases hs with h | h <;>
      simp [Transaction.CanRetry, h, StatusSuccess, StatusRefund, StatusFailed]
  have hCRT : ∀ cfg, canRetryTransaction t cfg env.now = false := by
    intro cfg
    rcases hs with h | h <;>
      simp [canRetryTransaction, h, StatusSuccess, StatusRefund, StatusFailed, StatusTimeout]
  refine ⟨?_, ?_, ?_, ?_, ?_⟩
  · unfold ProcessTransaction
    rw [ht]
    simp [hP]
  · unfold CancelTransaction
    rw [ht]
    simp [hP]
  · unfold CancelTransaction
    rw [ht]
    simp [hP]
  · unfold RetryFailedTransaction
    rw [ht]
    simp [hCR]
  · unfold RetryTransaction
    rw [ht]
    simp [hCRT]

/-- A successfully settled transaction and its store. -/
def doneTrx : Transaction := { baseTrx with Status := StatusSuccess }

def doneWorld : World :=
  { users := [sampleUser], products := [], suppliers := [sampleSupplier],
    mappings := [sampleMapping], transactions := [doneTrx], mutations := [], queue := [] }

set_option maxRecDepth 8000 in
/-- C2 witness: the fixpoint statement at a concrete `SUCCESS` record. -/
theorem terminal_success_refund_fixpoint_witness :
    ProcessTransaction envAllFail doneWorld "t1"
      = (doneWorld, some "transaction is not in pending status") ∧
    (CancelTransaction envAllFail doneWorld "t1").1 = doneWorld ∧
    (CancelTransaction envAllFail doneWorld "t1").2.isSome = true ∧
    RetryFailedTransaction envAllFail doneWorld "t1"
      = (doneWorld, some "transaction cannot be retried") ∧
    (RetryTransaction envAllFail doneWorld "t1" none).1 = doneWorld :=
  terminal_success_refund_fixpoint envAllFail doneWorld "t1" doneTrx none
    (by simp [findTrx, doneWorld, List.find?, doneTrx, baseTrx]) (Or.inl rfl)

/-! ## Lookup/update interplay lemmas -/

/-- `find?` commutes with a `map` whose function preserves the
predicate. -/
theorem find?_map_pres {α : Type} (p : α → Bool) (g : α → α)
    (hg : ∀ x, p (g x) = p x) :
    ∀ l : List α, (l.map g).find? p = (l.find? p).map g := by
  intro l
  induction l with
  | nil => rfl
  | cons x xs ih =>
    by_cases h : p x = true
    · rw [List.map_cons, List.find?_cons_of_pos _ (by rw [hg]; exact h),
        List.find?_cons_of_pos _ h, Option.map_some']
    · rw [List.map_cons, List.find?_cons_of_neg _ (by rw [hg]; simpa using h),
        List.find?_cons_of_neg _ (by simpa using h), ih]

/-- Rewriting the row with a given id to a row with the same id makes
it the one `find?` returns (provided a row with that id exists). -/
theorem find?_update_self (l : List Transaction) (t' : Transaction) (id : String)
    (hid : t'.ID = id)
    (hex : (l.find? (fun x => x.ID == id)).isSome = true) :
    (l.map (fun x => if x.ID == t'.ID then t' else x)).find? (fun x => x.ID == id)
      = some t' := by
  induction l with
  | nil => simp [List.find?] at hex
  | cons x xs ih =>
    by_cases hx : x.ID = id
    · have hxt : (x.ID == t'.ID) = true := by simp [hx, hid]
      rw [List.map_cons, if_pos hxt]
      exact List.find?_cons_of_pos _ (by simp [hid])
    · have hxt : (x.ID == t'.ID) = false := by simp [hx, hid]
      have hx' : (x.ID == id) = false := by simpa using hx
      have hex' : (xs.find? (fun x => x.ID == id)).isSome = true := by
        rw [List.find?_cons_of_neg _ (by simp [hx'])] at hex
        exact hex
      rw [List.map_cons, if_neg (by simp [hxt]), List.find?_cons_of_neg _ (by simp [hx']),
        ih hex']

/-- `findTrx` after `updateTrx` with a row carrying the looked-up id. -/
theorem findTrx_updateTrx_self (w : World) (t' : Transaction) (id : String)
    (hid : t'.ID = id) (hex : (findTrx w id).isSome = true) :
    findTrx (updateTrx w t') id = some t' :=
  find?_update_self w.transactions t' id hid hex

/-- `findTrx` after a status-only update. -/
theorem findTrx_updateTrxStatus (w : World) (id' s id : String) :
    findTrx (updateTrxStatus w id' s) id
      = (findTrx w id).map (fun x => if x.ID == id' then { x with Status := s } else x) := by
  unfold findTrx updateTrxStatus
  exact find?_map_pres _ _ (fun x => by by_cases h : (x.ID == id') = true <;> simp [h]) _

/-! ## C3 amended — where the attempt counter can and cannot move -/

/-- The supplier-call settlement on the success path never touches the
attempt counter. -/
theorem executeSupplierTransaction_success_attempts (env : Env) (w : World)
    (t : Transaction) (supplier : Supplier) (resp : SupplierResponse)
    (hadapt : env.adapterRegistered supplier.Code = true)
    (hresp : env.topUpResponse = some resp) (hrsucc : resp.Success = true)
    (id : String) (hid : t.ID = id) (hex : (findTrx w id).isSome = true) :
    (findTrx (executeSupplierTransaction env w t supplier).1 id).map
      (fun x => x.RoutingAttempts) = some t.RoutingAttempts := by
  unfold executeSupplierTransaction
  rw [hadapt, hresp]
  simp only [hrsucc, Bool.not_true, Bool.false_eq_true, if_false]
  split_ifs <;>
  · simp only [Option.map_eq_some']
    exact ⟨_, findTrx_updateTrx_self _ _ _ hid hex, rfl⟩

/-- Routing depends only on the mapping and supplier tables and the
product id. -/
theorem selectSupplier_congr (w w' : World) (t t' : Transaction)
    (hm : w'.mappings = w.mappings) (hsup : w'.suppliers = w.suppliers)
    (hp : t'.ProductID = t.ProductID) :
    selectSupplier w' t' = selectSupplier w t := by
  unfold selectSupplier getActiveMappings findSupplierW
  simp only [hm, hsup, hp]

/-- C3 amended: the attempt counter starts at 0, is preserved by
cancellation, by a rejected manual retry, and by the successful
processing path; only the retry controller's attempt loop rewrites it
(to the current attempt index), which is what makes the original
monotonicity claim fail. -/
theorem routing_attempts_amended (env : Env) (w : World) (id : String)
    (t : Transaction) (ht : findTrx w id = some t)
    (uid pc : String) (dest : List Char) (w' : World) (r : Transaction)
    (hcreate : CreateTransaction env w uid pc dest = (w', Except.ok r))
    (hno : t.CanRetry = false)
    (user : User) (sel : Supplier × ProductMapping) (resp : SupplierResponse)
    (hpend : t.Status = StatusPending)
    (hu : findUserW w t.UserID = some user)
    (hbal : user.HasSufficientBalance t.SellingPrice = true)
    (hsel : selectSupplier w t = some sel)
    (hadapt : env.adapterRegistered sel.1.Code = true)
    (hresp : env.topUpResponse = some resp) (hrsucc : resp.Success = true) :
    r.RoutingAttempts = 0 ∧
    ((findTrx (CancelTransaction env w id).1 id).map (fun x => x.RoutingAttempts)
      = some t.RoutingAttempts) ∧
    RetryFailedTransaction env w id = (w, some "transaction cannot be retried") ∧
    ((findTrx (ProcessTransaction env w id).1 id).map (fun x => x.RoutingAttempts)
      = some t.RoutingAttempts) := by
  have hid : t.ID = id := by
    have := List.find?_some ht
    simpa using this
  have hP : (t.Status != StatusPending) = false := by simp [hpend]
  have hex1 : (findTrx w id).isSome = true := by rw [ht]; rfl
  refine ⟨?_, ?_, ?_, ?_⟩
  · -- CreateTransaction initializes the counter to 0
    clear ht hno hpend hu hbal hsel hadapt hresp hrsucc hid hP hex1
    unfold CreateTransaction at hcreate
    iterate 6 (all_goals try split at hcreate)
    all_goals simp_all [Prod.ext_iff, apply_ite Prod.snd, apply_ite Prod.fst, ite_eq_iff]
    all_goals (obtain ⟨-, -, -, hr⟩ := hcreate; rw [← hr])
  · -- CancelTransaction rewrites the record with the same counter
    unfold CancelTransaction
    rw [ht]
    simp only [hP, Bool.false_eq_true, if_false]
    have hfp : (({ t with Status := StatusFailed, SupplierMessage := some "Transaction cancelled by user" } : Transaction).Status == StatusProcessing) = false := by
      simp [StatusFailed, StatusProcessing]
    simp only [hfp, Bool.false_eq_true, if_false]
    rw [findTrx_updateTrx_self w ({ t with Status := StatusFailed, SupplierMessage := some "Transaction cancelled by user" }) id hid hex1]
    rfl
  · -- a rejected manual retry leaves the store untouched
    unfold RetryFailedTransaction
    rw [ht]
    simp [hno]
  · -- the successful processing path never writes the counter
    unfold ProcessTransaction
    rw [ht]
    simp only [hP, Bool.false_eq_true, if_false]
    rw [show findUserW (updateTrxStatus w t.ID StatusProcessing)
        ({ t with ProcessedAt := some env.now } : Transaction).UserID = some user from hu]
    simp only [hbal, Bool.not_true, Bool.false_eq_true, if_false]
    rw [show selectSupplier (updateTrxStatus w t.ID StatusProcessing)
        ({ t with ProcessedAt := some env.now } : Transaction) = some sel from
      (selectSupplier_congr w _ t _ rfl rfl rfl).trans hsel]
    refine executeSupplierTransaction_success_attempts env _ _ sel.1 resp hadapt hresp
      hrsucc id hid ?_
    show (findTrx (updateTrxStatus w t.ID StatusProcessing) id).isSome = true
    rw [findTrx_updateTrxStatus, ht]
    rfl

/-- An active product `P1` sold at base price 9800. -/
def okProduct : Product :=
  { ID := "p1", Code := "P1", BasePrice := 9800, SellingPrice := 10000, MinPrice := 0,
    MaxTransactionAmount := 20000, IsActive := true }

/-- The pending purchase awaiting the worker. -/
def pendingTrx : Transaction := { baseTrx with Status := StatusPending }

/-- An admin-level user (pays base price, which keeps the witness
computation rational-arithmetic-free). -/
def adminUser : User :=
  { ID := "u1", IsActive := true, Balance := 50000, CreditLimit := 0,
    MarkupPercentage := 0, AllowDebt := false, Level := 4 }

/-- A store with a pending transaction and a healthy routing target. -/
def procWorld : World :=
  { users := [adminUser], products := [okProduct], suppliers := [sampleSupplier],
    mappings := [sampleMapping], transactions := [pendingTrx], mutations := [], queue := [] }

/-- The successful adapter answer of the witness scenario. -/
def okResp : SupplierResponse :=
  { Success := true, Message := "ok", TrxID := "sup-1", SerialNumber := "SN-1",
    ResponseTime := 120 }

/-- Oracle whose adapter answers success. -/
def envTopUpOk : Env := { envAllFail with topUpResponse := some okResp }

/-- The record `CreateTransaction` persists in the witness scenario. -/
def createdTrx : Transaction :=
  { ID := "id-1", TrxCode := "TRX-20260101-0002", UserID := "u1", ProductID := "p1",
    SupplierID := none, DestinationNumber := "628123456789".toList, ProductCode := "P1",
    HPP := 9800, SellingPrice := 9800, AdminFee := 0, Status := StatusPending,
    SerialNumber := none, SupplierMessage := none, SupplierTrxID := none,
    RoutingAttempts := 0, FinalSupplierID := none, CreatedAt := 0,
    ProcessedAt := none, CompletedAt := none }

set_option maxRecDepth 16000 in
/-- C3 witness: the amended statement at the concrete pending
transaction, with a concrete create call and a successful supplier
answer. -/
theorem routing_attempts_amended_witness :
    createdTrx.RoutingAttempts = 0 ∧
    ((findTrx (CancelTransaction envTopUpOk procWorld "t1").1 "t1").map
      (fun x => x.RoutingAttempts) = some pendingTrx.RoutingAttempts) ∧
    RetryFailedTransaction envTopUpOk procWorld "t1"
      = (procWorld, some "transaction cannot be retried") ∧
    ((findTrx (ProcessTransaction envTopUpOk procWorld "t1").1 "t1").map
      (fun x => x.RoutingAttempts) = some pendingTrx.RoutingAttempts) :=
  routing_attempts_amended envTopUpOk procWorld "t1" pendingTrx
    (by simp [findTrx, procWorld, List.find?, pendingTrx, baseTrx])
    "u1" "P1" ("08123456789".toList)
    ({ procWorld with
        transactions := procWorld.transactions ++ [createdTrx],
        queue := procWorld.queue ++ ["id-1"] })
    createdTrx
    (by decide)
    (by decide)
    adminUser (sampleSupplier, sampleMapping)
    okResp
    rfl
    (by simp [findUserW, procWorld, List.find?, adminUser, pendingTrx, baseTrx])
    (by decide)
    (by norm_num [selectSupplier, GetBestSupplier, rankedScores, candidateScores,
      healthyCandidates, getActiveMappings, calculateSupplierScore, calculateConfidence,
      calculateRecentPerformanceScore, generateReason, findSupplierW, Supplier.IsHealthy,
      MinSuccessRateThreshold, procWorld, sampleMapping, sampleSupplier, pendingTrx, baseTrx,
      List.insertionSort, List.orderedInsert, List.find?, List.filter, scoreGE, mappingOrder,
      defaultRoutingCriteria, StockStatusAvailable, StockStatusOutOfStock, StockStatusUnknown])
    rfl rfl rfl

/-! ## C7 — insufficient spending power rejects with no writes -/

/-- C7: when the user's spending power (balance, plus credit limit if
debt is allowed) is below the computed selling price — and the request
passes the earlier validation gates — `CreateTransaction` returns the
insufficient-balance error with the store untouched: no transaction
row, no queue entry, no ledger mutation. -/
theorem create_rejects_insufficient_balance
    (env : Env) (w : World) (userID productCode : String) (dest : List Char)
    (user : User) (product : Product)
    (hid : (userID == "") = false) (hpc : (productCode == "") = false)
    (hd : dest.isEmpty = false)
    (hphone : ValidatePhoneNumber dest = true)
    (hu : findUserW w userID = some user) (hua : user.IsActive = true)
    (hp : findProductByCode w productCode = some product) (hpa : product.IsActive = true)
    (hlow : ¬(user.GetEffectivePrice product.BasePrice < product.MinPrice))
    (hhigh : ¬(user.GetEffectivePrice product.BasePrice > product.MaxTransactionAmount))
    (hpoor : (if user.AllowDebt then user.Balance + user.CreditLimit else user.Balance)
      < user.GetEffectivePrice product.BasePrice) :
    CreateTransaction env w userID productCode dest
      = (w, Except.error "insufficient balance") := by
  have hbal : user.HasSufficientBalance (user.GetEffectivePrice product.BasePrice)
      = false := by
    unfold User.HasSufficientBalance
    cases hAD : user.AllowDebt <;> simp [hAD] at hpoor <;>
      simp [decide_eq_false_iff_not, not_le, hpoor]
  unfold CreateTransaction
  rw [if_neg (by simp [hid, hpc, hd]), if_neg (by simp [hphone])]
  simp only [hu, hua, hp, hpa, Bool.not_true, Bool.false_eq_true, if_false]
  rw [if_neg (by simp [hlow, hhigh]), if_pos (by simp [hbal])]

/-- A user whose balance is below the price, no debt allowed. -/
def poorUser : User :=
  { ID := "u2", IsActive := true, Balance := 5000, CreditLimit := 0,
    MarkupPercentage := 0, AllowDebt := false, Level := 4 }

/-- The store seen by the rejected create call. -/
def poorWorld : World :=
  { users := [poorUser], products := [okProduct], suppliers := [], mappings := [],
    transactions := [], mutations := [], queue := [] }

/-- C7 witness: balance 5000 against price 9800 — rejected with the
store unchanged. -/
theorem create_rejects_insufficient_balance_witness :
    CreateTransaction envAllFail poorWorld "u2" "P1" ("08123456789".toList)
      = (poorWorld, Except.error "insufficient balance") :=
  create_rejects_insufficient_balance envAllFail poorWorld "u2" "P1"
    ("08123456789".toList) poorUser okProduct
    (by decide) (by decide) (by decide) (by decide)
    (by simp [findUserW, poorWorld, List.find?, poorUser]) rfl
    (by simp [findProductByCode, poorWorld, List.find?, okProduct]) rfl
    (by decide) (by decide) (by decide)
